import Mathlib

/-!
Shallow embedding of the simple-rsc server (React Server Components with
server functions, built with esbuild) and proofs about its specification.

The embedding covers:
* the JS values stored in the shared state map (server/state.js),
* the JS Map set/get semantics used by both the state store and the
  server-function registry (server/server-functions.js),
* the directive classifier and the two codegen passes of server.js
  (register-server-functions and server-functions-proxy-client), and the
  client-reference tagging loop over the client build's output files,
* the POST /server-fn request handler of server.js, and
* the likeAlbum server function (app/actions/album.js).

Side effects are made explicit: the state store and the registry are passed
and returned as values, and thrown JS errors become Except.error carrying
the thrown message.
-/

namespace SimpleRSC

/-- A JS runtime value as it can appear in the shared state store or as a
function argument: the embedding keeps the cases the repository's code can
produce (undefined, null, NaN, booleans, integer numbers, strings). -/
inductive JSValue where
  | undefined
  | null
  | nan
  | bool (b : Bool)
  | num (n : Int)
  | str (s : String)
deriving DecidableEq, Repr

/-- JS nullish test: exactly null and undefined are nullish (the left side of
the E.g. `store.get(key) ?? defaultVal` operator falls through on these). -/
def JSValue.isNullish : JSValue → Bool
  | .undefined => true
  | .null => true
  | _ => false

/-- JS string coercion, as in the template literal like-$\x7balbumId\x7d of
app/actions/album.js. -/
def JSValue.toJSString : JSValue → String
  | .undefined => "undefined"
  | .null => "null"
  | .nan => "NaN"
  | .bool b => if b then "true" else "false"
  | .num n => toString n
  | .str s => s

/-- JS addition of 1 to a value, as in `current + 1` of app/actions/album.js:
numbers add, null coerces to 0, undefined gives NaN, booleans coerce to 0/1,
strings concatenate with "1". -/
def JSValue.addOne : JSValue → JSValue
  | .num n => .num (n + 1)
  | .null => .num 1
  | .undefined => .nan
  | .nan => .nan
  | .bool b => .num (if b then 2 else 1)
  | .str s => .str (s ++ "1")

/-- JS Map.prototype.get: the value under the first (unique) matching key,
none where JS returns undefined. -/
def mapGet {α : Type} : List (String × α) → String → Option α
  | [], _ => none
  | (k2, v) :: rest, k => if k2 = k then some v else mapGet rest k

/-- JS Map.prototype.set: replaces the value under an existing key in place,
else appends a new entry (JS keeps insertion order). -/
def mapSet {α : Type} : List (String × α) → String → α → List (String × α)
  | [], k, v => [(k, v)]
  | (k2, v2) :: rest, k, v =>
      if k2 = k then (k2, v) :: rest else (k2, v2) :: mapSet rest k v

theorem mapGet_mapSet_self {α : Type} (m : List (String × α)) (k : String) (v : α) :
    mapGet (mapSet m k v) k = some v := by
  induction m with
  | nil => simp [mapSet, mapGet]
  | cons hd tl ih =>
      obtain ⟨k2, v2⟩ := hd
      by_cases h : k2 = k
      · simp [mapSet, mapGet, h]
      · simp [mapSet, mapGet, h, ih]

/-- The shared state store of server/state.js: `const store = new Map()`. -/
abbrev Store := List (String × JSValue)

/-- server/state.js: `getValue(key, defaultVal)` returns
`store.get(key) ?? defaultVal` — the default both when the key is absent
(get yields undefined) and when the stored value is nullish. -/
def getValue (store : Store) (key : String) (defaultVal : JSValue) : JSValue :=
  match mapGet store key with
  | none => defaultVal
  | some v => if v.isNullish then defaultVal else v

/-- server/state.js: `setValue(key, val)` is `store.set(key, val)`. -/
def setValue (store : Store) (key : String) (val : JSValue) : Store :=
  mapSet store key val

/-- A JS function value that a server-function module exports: `run` is its
effect on the shared state store given its positional arguments; `tag` stands
for the function object's identity (two distinct function objects differ). -/
structure ServerFn where
  tag : String
  run : List JSValue → Store → Store

/-- The server-function registry of server/server-functions.js:
`const registry = new Map()`, id → function. -/
abbrev Registry := List (String × ServerFn)

/-- server/server-functions.js: `registerServerFunction(id, fn)` is
`registry.set(id, fn)`. -/
def registerServerFunction (registry : Registry) (id : String) (fn : ServerFn) : Registry :=
  mapSet registry id fn

/-- The message of the only error server/server-functions.js ever throws:
`new Error(6Server function not found: $\x7bid\x7d6)` (backquotes written 6). -/
def notFoundMessage (id : String) : String :=
  "Server function not found: " ++ id

/-- server/server-functions.js: `getServerFunction(id)` reads
`registry.get(id)` and throws the not-found Error when `!fn`; a stored
function value is always truthy, so the throw fires exactly on a miss. -/
def getServerFunction (registry : Registry) (id : String) : Except String ServerFn :=
  match mapGet registry id with
  | none => Except.error (notFoundMessage id)
  | some fn => Except.ok fn

/-- app/actions/album.js: `likeAlbum(albumId)` builds the key
like-$\x7balbumId\x7d, reads the current value with default 0 and stores
current + 1. -/
def likeAlbum (albumId : JSValue) (store : Store) : Store :=
  let key := "like-" ++ albumId.toJSString
  let current := getValue store key (JSValue.num 0)
  setValue store key current.addOne

/-- The likeAlbum export as a registered function value: `fn(...args)`
passes the positional arguments, so the first argument (undefined when
missing) becomes albumId. -/
def likeAlbumFn : ServerFn :=
  ⟨"likeAlbum", fun args store => likeAlbum (args.headD JSValue.undefined) store⟩

/-- What the POST /server-fn handler of server.js answers: on success it
streams the re-rendered page (an RSC stream), on a caught error it returns
`c.json(\x7berror: message\x7d, 500)`. -/
inductive Response where
  | rscStream
  | jsonError (error : String) (status : Nat)
deriving DecidableEq, Repr

/-- server.js `app.post('/server-fn')` with the request body already parsed
to (id, args): looks the id up via getServerFunction, runs the function on
the shared store and streams the page; a thrown error (here: the registry
miss) is caught and answered as a structured JSON error with status 500,
leaving the store untouched. -/
def handleServerFn (registry : Registry) (store : Store) (id : String)
    (args : List JSValue) : Response × Store :=
  match getServerFunction registry id with
  | Except.error msg => (Response.jsonError msg 500, store)
  | Except.ok fn => (Response.rscStream, fn.run args store)

/-- String.prototype.startsWith, used by every directive check in server.js:
a raw prefix test on the source text. -/
def jsStartsWith (s : String) (pat : String) : Bool :=
  pat.data.isPrefixOf s.data

/-- The single-quoted client directive literal checked at server.js line 134. -/
def useClientSingle : String := "'use client'"

/-- The single-quoted server directive literal (server.js lines 101, 154, 206). -/
def useServerSingle : String := "'use server'"

/-- The double-quoted server directive literal (server.js lines 101, 154, 206). -/
def useServerDouble : String := "\"use server\""

/-- The Realm a module is classified into (spec section 3). -/
inductive Realm where
  | Server
  | Client
  | ServerFunction
  | Shared
deriving DecidableEq, Repr

/-- The module classification the three server.js sites implement together:
resolve-client-imports tests `contents.startsWith("'use client'")` (single
quotes only, line 134); the server-function sites test both quote forms of
the use server directive (lines 101, 154, 206); everything else stays an
ordinary server module. A module cannot start with both directives, so the
ordering of the tests does not matter. -/
def classifyModule (contents : String) : Realm :=
  if jsStartsWith contents useClientSingle then Realm.Client
  else if jsStartsWith contents useServerSingle || jsStartsWith contents useServerDouble then
    Realm.ServerFunction
  else Realm.Server

/-- Splits a character list at every slash. -/
def splitOnSlash : List Char → List (List Char)
  | [] => [[]]
  | c :: rest =>
      if c = '/' then [] :: splitOnSlash rest
      else
        match splitOnSlash rest with
        | [] => [[c]]
        | seg :: segs => (c :: seg) :: segs

/-- Path segments of a slash-separated path, empty segments dropped. -/
def splitPath (p : String) : List String :=
  ((splitOnSlash p.data).map (fun seg => String.mk seg)).filter (fun s => s ≠ "")

/-- Drops the common leading segments of two segment lists. -/
def dropCommon : List String → List String → List String × List String
  | a :: as, b :: bs => if a = b then dropCommon as bs else (a :: as, b :: bs)
  | as, bs => (as, bs)

/-- Joins segments with a slash between them. -/
def joinSlash : List String → String
  | [] => ""
  | [s] => s
  | s :: rest => s ++ "/" ++ joinSlash rest

/-- node:path relative(fromDir, toPath) on already-resolved paths: drop the
common leading segments, then one .. per remaining fromDir segment followed
by the remaining toPath segments. -/
def pathRelative (fromDir : String) (toPath : String) : String :=
  let rest := dropCommon (splitPath fromDir) (splitPath toPath)
  joinSlash (rest.1.map (fun _ => "..") ++ rest.2)

/-- The app source directory, `new URL('./app/', import.meta.url)` in
server.js; the embedding roots paths at the directory holding server.js, so
the app directory is the path "app". -/
def appDirPath : String := "app"

/-- The build output directory, `new URL('./build/', import.meta.url)` in
server.js, rooted like appDirPath. -/
def buildDirPath : String := "build"

/-- `.replace(/\\/g, '/')` of server.js lines 166 and 227: every backslash
becomes a forward slash. -/
def normalizeSlashes (s : String) : String :=
  String.mk (s.data.map (fun c => if c = '\\' then '/' else c))

/-- The id the register-server-functions pass computes for one export
(server.js lines 166-167): relative(resolveApp(), path) with backslashes
normalized, then #, then the export name. -/
def serverRegistrationId (path : String) (exportName : String) : String :=
  normalizeSlashes (pathRelative appDirPath path) ++ "#" ++ exportName

/-- The id the server-functions-proxy-client pass computes for one export
(server.js lines 227-228): relative(resolveApp(), path) with backslashes
normalized, then #, then the export name. -/
def clientProxyId (path : String) (exportName : String) : String :=
  normalizeSlashes (pathRelative appDirPath path) ++ "#" ++ exportName

/-- One export as es-module-lexer's parse reports it: `n` the exported name
("default" for a default export, "" where the lexer yields no name) and `ln`
the local name of the exported value. -/
structure ExportInfo where
  n : String
  ln : String
deriving DecidableEq, Repr

/-- The (id, export name) registrations the register-server-functions onLoad
callback appends to a use-server module (server.js lines 162-171): exports
filtered by `e.n && e.n !== 'default'`, each mapped to a
registerServerFunction call under its computed id. -/
def serverRegistrations (path : String) (exports : List ExportInfo) : List (String × String) :=
  (exports.filter (fun e => e.n != "" && e.n != "default")).map
    (fun e => (serverRegistrationId path e.n, e.n))

/-- The (id, export name) proxy stubs the server-functions-proxy-client
onLoad callback generates (server.js lines 222-240): the same filter
`e.n && e.n !== 'default'`, each export mapped to an async stub calling
window.__callServerFunction with its computed id. -/
def clientProxies (path : String) (exports : List ExportInfo) : List (String × String) :=
  (exports.filter (fun e => e.n != "" && e.n != "default")).map
    (fun e => (clientProxyId path e.n, e.n))

/-- What an esbuild onLoad callback returns, as far as the claims need it:
the (id, export name) pairs whose generated code the callback appends, and
the error and warning diagnostics it reports back to esbuild. Both server.js
callbacks return only \x7bcontents, loader\x7d — no errors, no warnings. -/
structure OnLoadResult where
  generated : List (String × String)
  errors : List String
  warnings : List String
deriving DecidableEq, Repr

/-- server.js lines 152-178, the register-server-functions onLoad callback:
modules not starting with a use server directive (either quote form) are left
alone (none); a use-server module gets the auto-registration code appended,
with no diagnostics reported. -/
def registerServerFunctionsOnLoad (source : String) (path : String)
    (exports : List ExportInfo) : Option OnLoadResult :=
  if !jsStartsWith source useServerSingle && !jsStartsWith source useServerDouble then
    none
  else
    some ⟨serverRegistrations path exports, [], []⟩

/-- server.js lines 217-243, the server-functions-proxy-client onLoad
callback (its namespace filter already guarantees a use-server module):
generates the proxy stubs, with no diagnostics reported. -/
def serverFunctionsProxyOnLoad (path : String) (exports : List ExportInfo) : OnLoadResult :=
  ⟨clientProxies path exports, [], []⟩

/-- The two fields the client-reference tagging loop assigns onto an exported
value of a built client file (server.js lines 266-269): `$$id` and the
`$$typeof` sentinel Symbol.for("react.client.reference"), the latter
embedded as the symbol's key string. -/
structure ClientTag where
  idField : String
  typeofField : String
deriving DecidableEq, Repr

/-- server.js lines 258-259: the map key for an exported component,
/build/ plus the path of the built file relative to the build directory,
then #, then the export name. -/
def clientReferenceKey (filePath : String) (exportName : String) : String :=
  "/build/" ++ pathRelative buildDirPath filePath ++ "#" ++ exportName

/-- server.js lines 249-272: for one output file of the client build, the
tagging loop walks its parsed exports and assigns, onto each export's local
name, the key as `$$id` and the react.client.reference sentinel as
`$$typeof`. -/
def tagOutputFile (filePath : String) (exports : List ExportInfo) :
    List (String × ClientTag) :=
  exports.map (fun e => (e.ln, ⟨clientReferenceKey filePath e.n, "react.client.reference"⟩))

/-- The registry as it stands after the built actions/album.js module has
run its appended auto-registration: likeAlbum registered under the id the
server pass computed for app/actions/album.js. -/
def albumRegistry : Registry :=
  registerServerFunction [] (serverRegistrationId "app/actions/album.js" "likeAlbum") likeAlbumFn

/-! Theorems. -/

theorem getValue_setValue_eq (store : Store) (k : String) (v : JSValue) (d : JSValue) :
    getValue (setValue store k v) k d = if v.isNullish then d else v := by
  simp [getValue, setValue, mapGet_mapSet_self]

/-- C1: for every server-function module path and named export crossing the
client boundary, the id of the server-side auto-registration pass equals the
id of the client-side proxy-stub pass, and both equal the app-directory
relative path (backslashes normalized to /) concatenated with # and the
export name. -/
theorem codegen_passes_agree_on_id (path : String) (exportName : String) :
    serverRegistrationId path exportName = clientProxyId path exportName ∧
    serverRegistrationId path exportName =
      normalizeSlashes (pathRelative appDirPath path) ++ "#" ++ exportName :=
  ⟨rfl, rfl⟩

/-- A server function value used as the first registered function in the
duplicate-registration counterexample; its effect leaves the store alone. -/
def fnFirst : ServerFn := ⟨"first", fun _ store => store⟩

/-- A second, different server function value for the same counterexample. -/
def fnSecond : ServerFn := ⟨"second", fun _ store => store⟩

/-- C2 counterexample: registering a second, different function under an
already-used id does not fail — the registry silently takes the new
function, so resolve afterwards returns it (last write wins). -/
theorem duplicate_registration_overwrites :
    fnFirst ≠ fnSecond ∧
    getServerFunction
        (registerServerFunction (registerServerFunction [] "dup#fn" fnFirst) "dup#fn" fnSecond)
        "dup#fn" =
      Except.ok fnSecond := by
  constructor
  · intro h
    exact absurd (congrArg ServerFn.tag h) (by decide)
  · rfl

/-- C2 amended: register(id, fn2) on a registry that already maps id to some
fn1 silently overwrites the mapping — afterwards resolve(id) returns fn2;
no error is raised and no registration ever fails (last write wins). -/
theorem register_is_last_write_wins (registry : Registry) (id : String)
    (fn1 fn2 : ServerFn) :
    getServerFunction
        (registerServerFunction (registerServerFunction registry id fn1) id fn2) id =
      Except.ok fn2 := by
  simp [getServerFunction, registerServerFunction, mapGet_mapSet_self]

/-- C4: register(id, fn) followed by resolve(id) returns exactly the
function that was registered. -/
theorem register_then_resolve_roundtrip (registry : Registry) (id : String) (fn : ServerFn) :
    getServerFunction (registerServerFunction registry id fn) id = Except.ok fn := by
  simp [getServerFunction, registerServerFunction, mapGet_mapSet_self]

/-- C5: resolve on an id that was never registered fails with the not-found
error, and for every registry and id, resolve either succeeds or fails with
the not-found error — never with any other kind of error. -/
theorem resolve_unregistered_not_found (registry : Registry) (id : String) :
    (mapGet registry id = none →
      getServerFunction registry id = Except.error (notFoundMessage id)) ∧
    ((∃ fn, getServerFunction registry id = Except.ok fn) ∨
      getServerFunction registry id = Except.error (notFoundMessage id)) := by
  constructor
  · intro h
    simp [getServerFunction, h]
  · cases h : mapGet registry id with
    | none => right; simp [getServerFunction, h]
    | some fn => left; exact ⟨fn, by simp [getServerFunction, h]⟩

/-- C5 witness: the theorem applied to the empty registry and a concrete
unregistered id. -/
theorem resolve_unregistered_not_found_witness :
    getServerFunction [] "nonexistent#fn" =
      Except.error (notFoundMessage "nonexistent#fn") :=
  (resolve_unregistered_not_found [] "nonexistent#fn").1 rfl

/-- C6: a POST /server-fn request whose id is not in the registry is answered
with a structured JSON error carrying status 500, and the state store is
returned exactly as it was — no key changes. -/
theorem server_fn_unknown_id_errors_store_unchanged (registry : Registry) (store : Store)
    (id : String) (args : List JSValue) (h : mapGet registry id = none) :
    handleServerFn registry store id args =
      (Response.jsonError (notFoundMessage id) 500, store) := by
  simp [handleServerFn, getServerFunction, h]

/-- C6 witness: the theorem applied to the empty registry, a nonempty store
and the concrete request of the spec's scenario. -/
theorem server_fn_unknown_id_errors_store_unchanged_witness :
    handleServerFn [] [("like-a1", JSValue.num 7)] "nonexistent#fn" [] =
      (Response.jsonError (notFoundMessage "nonexistent#fn") 500,
        [("like-a1", JSValue.num 7)]) :=
  server_fn_unknown_id_errors_store_unchanged [] [("like-a1", JSValue.num 7)]
    "nonexistent#fn" [] rfl

/-- C7: from the empty store, dispatching
(actions/album.js#likeAlbum, ["a1"]) once makes the key like-a1 read 1; a
second sequential dispatch makes it read 2; and in general one likeAlbum
call on a store whose key reads n makes that key read n + 1. -/
theorem likeAlbum_increments_by_one :
    getValue
        (handleServerFn albumRegistry [] "actions/album.js#likeAlbum" [JSValue.str "a1"]).2
        "like-a1" (JSValue.num 0) = JSValue.num 1 ∧
    getValue
        (handleServerFn albumRegistry
          (handleServerFn albumRegistry [] "actions/album.js#likeAlbum" [JSValue.str "a1"]).2
          "actions/album.js#likeAlbum" [JSValue.str "a1"]).2
        "like-a1" (JSValue.num 0) = JSValue.num 2 ∧
    (∀ (store : Store) (albumId : JSValue) (n : Int),
      getValue store ("like-" ++ albumId.toJSString) (JSValue.num 0) = JSValue.num n →
      getValue (likeAlbum albumId store) ("like-" ++ albumId.toJSString) (JSValue.num 0) =
        JSValue.num (n + 1)) := by
  refine ⟨by decide, by decide, ?_⟩
  intro store albumId n h
  simp [likeAlbum, h, JSValue.addOne, getValue_setValue_eq, JSValue.isNullish]

/-- C7 witness: the general increment conjunct applied to a concrete store
holding like-a1 at 5. -/
theorem likeAlbum_increments_by_one_witness :
    getValue (likeAlbum (JSValue.str "a1") [("like-a1", JSValue.num 5)])
        ("like-" ++ (JSValue.str "a1").toJSString) (JSValue.num 0) =
      JSValue.num (5 + 1) :=
  likeAlbum_increments_by_one.2.2 [("like-a1", JSValue.num 5)] (JSValue.str "a1") 5 (by decide)

/-- C10: reading a key right after writing it returns the written value when
that value is not nullish, and the caller's default when it is — at the read
interface a stored null or undefined is indistinguishable from an absent
key, whose read also yields the default. -/
theorem getValue_after_setValue (store : Store) (k : String) (v : JSValue) (d : JSValue) :
    getValue (setValue store k v) k d = (if v.isNullish then d else v) ∧
    (v.isNullish = true → getValue (setValue store k v) k d = getValue [] k d) := by
  constructor
  · exact getValue_setValue_eq store k v d
  · intro h
    rw [getValue_setValue_eq, h]
    simp [getValue, mapGet]

/-- C10 witness: the nullish conjunct applied to a concrete store, key and
stored null. -/
theorem getValue_after_setValue_witness :
    getValue (setValue [("k", JSValue.num 3)] "k" JSValue.null) "k" (JSValue.num 9) =
      getValue [] "k" (JSValue.num 9) :=
  (getValue_after_setValue [("k", JSValue.num 3)] "k" JSValue.null (JSValue.num 9)).2 rfl

theorem jsStartsWith_append_self (p : String) (rest : String) :
    jsStartsWith (p ++ rest) p = true := by
  simp [jsStartsWith, String.data_append, List.isPrefixOf_iff_prefix]

/-- C3 counterexample: a module whose first statement is the string literal
use client in double-quote form is classified Server, not Client — the
client check of server.js line 134 tests the single-quote spelling only. -/
theorem double_quoted_use_client_classified_server :
    classifyModule "\"use client\";\nexport function Like() \x7b\x7d" = Realm.Server := by
  decide

/-- C3 amended: the classifier tests a raw prefix of the module source. A
source beginning with the single-quoted use client directive is classified
Client, but the double-quote form of use client is not recognized and falls
through to Server; a source beginning with use server in either quote form
is classified ServerFunction; any source matching none of these prefixes is
classified Server. -/
theorem classifyModule_prefix_rules (rest : String) :
    classifyModule (useClientSingle ++ rest) = Realm.Client ∧
    classifyModule (useServerSingle ++ rest) = Realm.ServerFunction ∧
    classifyModule (useServerDouble ++ rest) = Realm.ServerFunction ∧
    classifyModule ("\"use client\"" ++ rest) = Realm.Server ∧
    (∀ source : String, jsStartsWith source useClientSingle = false →
      jsStartsWith source useServerSingle = false →
      jsStartsWith source useServerDouble = false →
      classifyModule source = Realm.Server) := by
  refine ⟨?_, ?_, ?_, rfl, ?_⟩
  · simp [classifyModule, jsStartsWith_append_self]
  · have h1 : jsStartsWith (useServerSingle ++ rest) useClientSingle = false := rfl
    simp [classifyModule, h1, jsStartsWith_append_self]
  · have h1 : jsStartsWith (useServerDouble ++ rest) useClientSingle = false := rfl
    simp [classifyModule, h1, jsStartsWith_append_self]
  · intro source h1 h2 h3
    simp [classifyModule, h1, h2, h3]

/-- C3 witness: the amended rules applied at concrete sources, including the
default case on an ordinary module. -/
theorem classifyModule_prefix_rules_witness :
    classifyModule "export function f() \x7b\x7d" = Realm.Server :=
  (classifyModule_prefix_rules "").2.2.2.2 "export function f() \x7b\x7d" rfl rfl rfl

/-- C8: for every output file of the client build and every export the
lexer reports for it, the tagging loop attaches to that export (under its
local name) an id field equal to /build/ plus the build-relative file path
plus # plus the export name, and the react.client.reference sentinel that
the stream renderer uses to avoid executing the component server-side. -/
theorem client_export_tagged (filePath : String) (exports : List ExportInfo)
    (e : ExportInfo) (h : e ∈ exports) :
    (e.ln,
      ClientTag.mk ("/build/" ++ pathRelative buildDirPath filePath ++ "#" ++ e.n)
        "react.client.reference") ∈ tagOutputFile filePath exports := by
  simp [tagOutputFile, clientReferenceKey, List.mem_map]
  exact ⟨e, h, rfl, rfl⟩

/-- C8 witness: the spec's scenario, a built client file exporting Like. -/
theorem client_export_tagged_witness :
    ("Like",
      ClientTag.mk ("/build/" ++ pathRelative buildDirPath "build/Like.js" ++ "#" ++ "Like")
        "react.client.reference") ∈
      tagOutputFile "build/Like.js" [ExportInfo.mk "Like" "Like"] :=
  client_export_tagged "build/Like.js" [ExportInfo.mk "Like" "Like"]
    (ExportInfo.mk "Like" "Like") (by simp)

/-- C9 counterexample: a use-server module whose only export is a default
export yields, from the server pass, a load result with no registrations,
no errors and no warnings — and the client proxy pass likewise generates
nothing and reports nothing. The default export is dropped with no report
of any kind, contradicting the claim that both passes detect and report
it. -/
theorem default_export_dropped_without_report :
    registerServerFunctionsOnLoad "'use server'\nexport default function likeAll() \x7b\x7d"
        "app/actions/album.js" [ExportInfo.mk "default" "likeAll"] =
      some (OnLoadResult.mk [] [] []) ∧
    serverFunctionsProxyOnLoad "app/actions/album.js" [ExportInfo.mk "default" "likeAll"] =
      OnLoadResult.mk [] [] [] := by
  constructor
  · rfl
  · rfl

/-- C9 amended: both codegen passes skip default exports at build time — no
registration and no proxy stub is generated for an export named default, so
none is ever assigned a broken or colliding id — but the skip is silent:
the passes return no error and no warning diagnostics, for any module. -/
theorem default_export_skipped_silently (path : String) (exports : List ExportInfo) :
    ((serverRegistrations path exports).all (fun r => r.2 != "default")) = true ∧
    ((clientProxies path exports).all (fun r => r.2 != "default")) = true ∧
    (∀ (source : String) (res : OnLoadResult),
      registerServerFunctionsOnLoad source path exports = some res →
      res.errors = [] ∧ res.warnings = []) ∧
    (serverFunctionsProxyOnLoad path exports).errors = [] ∧
    (serverFunctionsProxyOnLoad path exports).warnings = [] := by
  refine ⟨?_, ?_, ?_, rfl, rfl⟩
  · simp only [serverRegistrations, List.all_eq_true]
    intro r hr
    obtain ⟨e, he, rfl⟩ := List.mem_map.1 hr
    have := List.of_mem_filter he
    simp only [Bool.and_eq_true] at this
    simpa using this.2
  · simp only [clientProxies, List.all_eq_true]
    intro r hr
    obtain ⟨e, he, rfl⟩ := List.mem_map.1 hr
    have := List.of_mem_filter he
    simp only [Bool.and_eq_true] at this
    simpa using this.2
  · intro source res h
    unfold registerServerFunctionsOnLoad at h
    by_cases hs : (!jsStartsWith source useServerSingle && !jsStartsWith source useServerDouble) = true
    · simp [hs] at h
    · simp [hs] at h
      obtain rfl := h.symm
      exact ⟨rfl, rfl⟩

/-- C9 witness: the silent-skip theorem applied to the album module with a
default export, its hypothesis discharged at the concrete source. -/
theorem default_export_skipped_silently_witness :
    (OnLoadResult.mk ([] : List (String × String)) [] []).errors = [] ∧
    (OnLoadResult.mk ([] : List (String × String)) [] []).warnings = [] :=
  (default_export_skipped_silently "app/actions/album.js"
      [ExportInfo.mk "default" "likeAll"]).2.2.1
    "'use server'\nexport default function likeAll() \x7b\x7d"
    (OnLoadResult.mk [] [] []) rfl

end SimpleRSC
